import Mathlib

/-!
Verification of the credential-synchronization core of the cluster-samples
operator (pkg/stub/secrets.go). The Go functions are embedded as pure Lean
functions in explicit state-passing style: the mutable handler and cluster
state is a World value, external collaborator behavior (the secret client
wrapper, the CRD status writer, the upsert gate) is an Env value of fixed
per-operation results, and every call issued to a collaborator is recorded
in a trace so that claims about which calls happen are statable.
-/

namespace Samples

/-- Constant from secrets.go: namespace of the cluster default pull secret. -/
def coreosPullSecretNamespace : String := "kube-system"

/-- Constant from secrets.go: name of the cluster default pull secret. -/
def coreosPullSecretName : String := "coreos-pull-secret"

/-- Modelled from the spec: the fixed well-known mirror secret name constant
(v1.SamplesRegistryCredentials), declared in the external API package that is
not part of the sources; only its value as an opaque fixed string matters. -/
def SamplesRegistryCredentials : String := "samples-registry-credentials"

/-- Modelled from the spec: the fixed well-known version annotation key
constant named SamplesVersionAnnotation in v1, declared in the external API package
that is not part of the sources; only its value as an opaque fixed string
matters. -/
def SamplesVersionAnnotation : String := "samples.operator.openshift.io/version"

/-- Tri-state condition status (corev1.ConditionStatus). -/
inductive ConditionStatus
  | ctrue
  | cfalse
  | cunknown
  deriving DecidableEq, Repr

/-- A named condition on the Config resource; only the
ImportCredentialsExist condition appears in this core, so the name is left
implicit. Status plus free-text message (timestamps are not modelled: no
claim mentions them). -/
structure Condition where
  status : ConditionStatus
  message : String
  deriving DecidableEq, Repr

/-- Management state of the samples resource (operatorsv1api values plus an
unrecognized catch-all, which secrets.go treats like Managed). -/
inductive ManagementState
  | managed
  | unmanaged
  | removed
  | unrecognized (s : String)
  deriving DecidableEq, Repr

/-- The samples Config resource as consumed by secrets.go: management state,
the externally derived ClusterNeedsCreds predicate (modelled from the spec as
a boolean field: its derivation is outside this core), and the
ImportCredentialsExist condition (zero value: Unknown with empty message). -/
structure Config where
  managementState : ManagementState
  clusterNeedsCreds : Bool
  importCredentialsExist : Condition
  deriving DecidableEq, Repr

/-- A Kubernetes Secret restricted to the fields secrets.go reads or writes.
Data stands for every payload field carried along by DeepCopyInto. -/
structure Secret where
  Name : String
  Namespace : String
  ResourceVersion : String
  UID : String
  Annotations : Option (List (String × String))
  Data : List (String × String)
  deriving DecidableEq, Repr

/-- A watch event: the deleted flag delivered with the secret (v1.Event). -/
structure Event where
  Deleted : Bool
  deriving DecidableEq, Repr

/-- Error kinds returned by the secret store, distinguishable by the
kerrors.IsNotFound / kerrors.IsAlreadyExists predicates. -/
inductive StoreErr
  | notFound
  | alreadyExists
  | other (s : String)
  deriving DecidableEq, Repr

/-- A Go error value as observed by secrets.go: a typed store error, an
fmt.Errorf message, or a status-writer failure. -/
inductive GoErr
  | store (e : StoreErr)
  | errorf (s : String)
  | statusUpdate (s : String)
  deriving DecidableEq, Repr

/-- kerrors.IsNotFound on a possibly nil error. -/
def isNotFound : Option GoErr → Bool
  | some (GoErr.store StoreErr.notFound) => true
  | _ => false

/-- kerrors.IsAlreadyExists on a possibly nil error. -/
def isAlreadyExists : Option GoErr → Bool
  | some (GoErr.store StoreErr.alreadyExists) => true
  | _ => false

/-- The text carried by an error, as produced by formatting it with a
percent-v verb. -/
def errMessage : GoErr → String
  | GoErr.store StoreErr.notFound => "not found"
  | GoErr.store StoreErr.alreadyExists => "already exists"
  | GoErr.store (StoreErr.other s) => s
  | GoErr.errorf s => s
  | GoErr.statusUpdate s => s

/-- A call issued to the secret client wrapper, recorded for trace claims. -/
inductive StoreCall
  | get (ns name : String)
  | create (ns : String) (payload : Secret)
  | update (ns : String) (payload : Secret)
  | delete (ns name : String)
  deriving DecidableEq, Repr

/-- Behavior of the external collaborators for one event delivery: the
operator version (h.version), the upsert gate counter (cache.UpsertsAmount),
and the result each store / status operation would return. secrets.go issues
at most one Get (of the source secret), one Create, one Update and one Delete
(all against fixed targets) per event, so per-operation results suffice. -/
structure Env where
  version : String
  upsertsAmount : Nat
  getSourceErr : Option GoErr
  getSourceSecret : Option Secret
  createErr : Option GoErr
  updateErr : Option GoErr
  deleteErr : Option GoErr
  updateStatusErr : Option GoErr

/-- The mutable state threaded through one event delivery: the Config object
(mutated in place by the Go code), the process-local retry counter of the handler,
and the observable interaction record (store calls and status write count). -/
structure World where
  cfg : Config
  secretRetryCount : Nat
  storeTrace : List StoreCall
  updateStatusCalls : Nat
  deriving DecidableEq, Repr

/-- Modelled from the spec: ConditionTracker.IsTrue (cfg.ConditionTrue),
declared outside the sources; true exactly when the condition status is True
(section 4.1 of the spec). -/
def ConditionTrue (cfg : Config) : Bool :=
  cfg.importCredentialsExist.status = ConditionStatus.ctrue

/-- Modelled from the spec: h.GoodConditionUpdate, declared outside the
sources. Per the ConditionTracker contract (spec 4.1) it is a pure in-memory
Set of the condition to the new status; a no-change update is skipped (the
spec mandates no status churn on duplicate events), and a clean status change
carries no error message. -/
def GoodConditionUpdate (cfg : Config) (newStatus : ConditionStatus) : Config :=
  if cfg.importCredentialsExist.status = newStatus then cfg
  else { cfg with importCredentialsExist := { status := newStatus, message := "" } }

/-- Modelled from the spec: h.processError, declared outside the sources.
Per the ConditionTracker contract (spec 4.1, pure in-memory mutation with no
I/O) it folds the error into the condition as the given status with the
formatted error text as message, and hands the original error back to the
caller; flushing is decided at each call site (secrets.go line 222 flushes
explicitly after it, and line 179 returns its result directly). -/
def processError (cfg : Config) (cstatus : ConditionStatus) (err : GoErr) :
    GoErr × Config :=
  (err, { cfg with
            importCredentialsExist := { status := cstatus, message := errMessage err } })

/-- Modelled from the spec: StatusWriter.UpdateStatus (h.crdwrapper); the
model counts the call and returns the environment-chosen result. -/
def UpdateStatus (env : Env) (w : World) : Option GoErr × World :=
  (env.updateStatusErr, { w with updateStatusCalls := w.updateStatusCalls + 1 })

/-- secretsWeCareAbout from secrets.go: the source identity in kube-system or
the mirror identity in the openshift namespace. -/
def secretsWeCareAbout (secret : Secret) : Bool :=
  (secret.Name = coreosPullSecretName ∧ secret.Namespace = coreosPullSecretNamespace) ∨
  (secret.Name = SamplesRegistryCredentials ∧ secret.Namespace = "openshift")

/-- The secret payload built by copyDefaultClusterPullSecret: a deep copy of
the source with name rewritten to the mirror constant, namespace-scoped
identity fields blanked, and annotations replaced by the single version
stamp. -/
def mkSecretToCreate (env : Env) (secret : Secret) : Secret :=
  { secret with
      Name := SamplesRegistryCredentials
      Namespace := ""
      ResourceVersion := ""
      UID := ""
      Annotations := some [( SamplesVersionAnnotation, env.version)] }

/-- The create-then-maybe-update tail of copyDefaultClusterPullSecret
(secrets.go lines 32-44), shared by both entry modes. -/
def copyCreateOrUpdate (env : Env) (w : World) (secret : Secret) :
    Option GoErr × World :=
  let secretToCreate := mkSecretToCreate env secret
  let w1 := { w with storeTrace := w.storeTrace ++ [StoreCall.create "openshift" secretToCreate] }
  if isAlreadyExists env.createErr then
    (env.updateErr,
      { w1 with storeTrace := w1.storeTrace ++ [StoreCall.update "openshift" secretToCreate] })
  else
    (env.createErr, w1)

/-- copyDefaultClusterPullSecret from secrets.go: with no supplied secret,
fetch the source secret (propagating a fetch error, and treating a nil
result with no error as a no-op success); then build the mirror payload and
create it in the openshift namespace, falling back to update on
AlreadyExists. -/
def copyDefaultClusterPullSecret (env : Env) (w : World) (secret : Option Secret) :
    Option GoErr × World :=
  match secret with
  | some s => copyCreateOrUpdate env w s
  | none =>
    let w1 := { w with
                  storeTrace := w.storeTrace ++
                    [StoreCall.get coreosPullSecretNamespace coreosPullSecretName] }
    match env.getSourceErr with
    | some e => (some e, w1)
    | none =>
      match env.getSourceSecret with
      | none => (none, w1)
      | some s => copyCreateOrUpdate env w1 s

/-- manageDockerCfgSecret from secrets.go: filter to the two identities, then
dispatch on the secret name; mirror identity deleted means recreate from the
source (NotFound means the source is gone: condition False, swallowed);
source identity deleted means delete the mirror (NotFound swallowed) and set
condition False; source identity upserted means copy it into the mirror and
set condition True on success. -/
def manageDockerCfgSecret (env : Env) (w : World) (deleted : Bool) (secret : Secret) :
    Option GoErr × World :=
  if ¬ secretsWeCareAbout secret then (none, w)
  else if secret.Name = SamplesRegistryCredentials then
    if deleted then
      match copyDefaultClusterPullSecret env w none with
      | (some e, w1) =>
        if isNotFound (some e) then
          (none, { w1 with cfg := GoodConditionUpdate w1.cfg ConditionStatus.cfalse })
        else
          (some e, w1)
      | (none, w1) =>
        (none, { w1 with cfg := GoodConditionUpdate w1.cfg ConditionStatus.ctrue })
    else
      (none, w)
  else if secret.Name = coreosPullSecretName then
    if deleted then
      let w1 := { w with
                    storeTrace := w.storeTrace ++
                      [StoreCall.delete "openshift" SamplesRegistryCredentials] }
      match env.deleteErr with
      | some e =>
        if isNotFound (some e) then
          (none, { w1 with cfg := GoodConditionUpdate w1.cfg ConditionStatus.cfalse })
        else
          (some e, w1)
      | none =>
        (none, { w1 with cfg := GoodConditionUpdate w1.cfg ConditionStatus.cfalse })
    else
      match copyDefaultClusterPullSecret env w (some secret) with
      | (none, w1) =>
        (none, { w1 with cfg := GoodConditionUpdate w1.cfg ConditionStatus.ctrue })
      | (some e, w1) => (some e, w1)
  else (none, w)

/-- WaitingForCredential from secrets.go: if the cluster needs credentials,
block (first boolean true); a second true additionally asks the caller to
flush, which happens exactly when the condition message was still empty and
the missing-credential error has just been recorded. The possibly mutated
Config is returned explicitly. -/
def WaitingForCredential (cfg : Config) : Config × Bool × Bool :=
  if cfg.clusterNeedsCreds then
    let cred := cfg.importCredentialsExist
    if cred.message.length > 0 then
      (cfg, true, false)
    else
      let err := GoErr.errorf
        "Cannot create rhel imagestreams to registry.redhat.io without the credentials being available"
      let r := processError cfg ConditionStatus.cfalse err
      (r.2, true, true)
  else
    (cfg, false, false)

/-- True when the secret has a non-nil annotations map containing the
version stamp key (the two-step check of secrets.go lines 162-164). -/
def hasVersionStamp (secret : Secret) : Bool :=
  match secret.Annotations with
  | none => false
  | some m => (m.lookup SamplesVersionAnnotation).isSome

/-- The tail of processSecretEvent after the openshift-namespace branch
falls through (secrets.go lines 201-223): reset the retry counter, ignore
stray events in removed state, run manageDockerCfgSecret, fold an error into
the condition as Unknown and always flush, otherwise flush exactly when the
condition status changed. -/
def processSecretEventTail (env : Env) (w : World) (dockercfgSecret : Secret)
    (deleted removedState : Bool) : Option GoErr × World :=
  let w0 := { w with secretRetryCount := 0 }
  if removedState then
    (none, w0)
  else
    let beforeStatus := w0.cfg.importCredentialsExist.status
    match manageDockerCfgSecret env w0 deleted dockercfgSecret with
    | (some e, w1) =>
      let r := processError w1.cfg ConditionStatus.cunknown e
      UpdateStatus env { w1 with cfg := r.2 }
    | (none, w1) =>
      if w1.cfg.importCredentialsExist.status = beforeStatus then
        (none, w1)
      else
        UpdateStatus env w1

/-- processSecretEvent from secrets.go: the secret event state machine.
Busy gate first, then management-state dispatch (Unmanaged ignores), then
the openshift-namespace branch (annotated echo, missing-annotation policy
violation, bounded-retry deletion handling, removed-state finalization),
then the shared tail. -/
def processSecretEvent (env : Env) (w : World) (dockercfgSecret : Secret)
    (event : Event) : Option GoErr × World :=
  if env.upsertsAmount > 0 then
    (some (GoErr.errorf "retry secret event because in the middle of an sample upsert cycle"), w)
  else if w.cfg.managementState = ManagementState.unmanaged then
    (none, w)
  else
    let removedState : Bool := w.cfg.managementState = ManagementState.removed
    let deleted := event.Deleted
    if dockercfgSecret.Namespace = "openshift" then
      if deleted = false then
        if hasVersionStamp dockercfgSecret then
          if ¬ ConditionTrue w.cfg then
            UpdateStatus env { w with cfg := GoodConditionUpdate w.cfg ConditionStatus.ctrue }
          else
            (none, w)
        else
          let r := processError w.cfg ConditionStatus.cunknown
            (GoErr.errorf "the samples credential was created/updated in the openshift namespace without the version annotation")
          (some r.1, { w with cfg := r.2 })
      else
        if ConditionTrue w.cfg ∧ w.secretRetryCount < 3 then
          (some (GoErr.errorf "retry on credential deletion in the openshift namespace to make sure the operator deleted it"),
            { w with secretRetryCount := w.secretRetryCount + 1 })
        else if removedState then
          UpdateStatus env { w with cfg := GoodConditionUpdate w.cfg ConditionStatus.cfalse }
        else
          processSecretEventTail env w dockercfgSecret deleted removedState
    else
      processSecretEventTail env w dockercfgSecret deleted removedState

/-! Concrete fixtures used by witnesses and counterexamples. -/

/-- The mirror-identity secret with no annotations. -/
def mirrorSecret0 : Secret :=
  { Name := SamplesRegistryCredentials, Namespace := "openshift",
    ResourceVersion := "", UID := "", Annotations := none, Data := [] }

/-- The mirror-identity secret carrying the version stamp. -/
def stampedMirror0 : Secret :=
  { mirrorSecret0 with Annotations := some [( SamplesVersionAnnotation, "4.0")] }

/-- The source-identity secret. -/
def sourceSecret0 : Secret :=
  { Name := coreosPullSecretName, Namespace := coreosPullSecretNamespace,
    ResourceVersion := "rv1", UID := "u1",
    Annotations := some [("k", "v")], Data := [("dockercfg", "xyz")] }

/-- An environment where the gate is clear and every collaborator call
succeeds, with the source secret present. -/
def quietEnv : Env :=
  { version := "4.0", upsertsAmount := 0, getSourceErr := none,
    getSourceSecret := some sourceSecret0, createErr := none,
    updateErr := none, deleteErr := none, updateStatusErr := none }

/-- A world with the given management state, condition and retry counter,
an empty trace and no status writes yet. -/
def baseWorld (ms : ManagementState) (c : Condition) (retry : Nat) : World :=
  { cfg := { managementState := ms, clusterNeedsCreds := false,
             importCredentialsExist := c },
    secretRetryCount := retry, storeTrace := [], updateStatusCalls := 0 }

/-! Helper lemmas shared by the claim proofs. -/

/-- A good condition update always lands on the requested status. -/
theorem GoodConditionUpdate_status (cfg : Config) (st : ConditionStatus) :
    (GoodConditionUpdate cfg st).importCredentialsExist.status = st := by
  unfold GoodConditionUpdate
  split <;> simp_all

/-- A good condition update never touches the management state. -/
theorem GoodConditionUpdate_managementState (cfg : Config) (st : ConditionStatus) :
    (GoodConditionUpdate cfg st).managementState = cfg.managementState := by
  unfold GoodConditionUpdate
  split <;> rfl

/-- The create/update tail never touches the retry counter. -/
theorem copyCreateOrUpdate_retry (env : Env) (w : World) (s : Secret) :
    (copyCreateOrUpdate env w s).2.secretRetryCount = w.secretRetryCount := by
  unfold copyCreateOrUpdate
  split <;> rfl

/-- copyDefaultClusterPullSecret never touches the retry counter. -/
theorem copyDefaultClusterPullSecret_retry (env : Env) (w : World) (s : Option Secret) :
    (copyDefaultClusterPullSecret env w s).2.secretRetryCount = w.secretRetryCount := by
  unfold copyDefaultClusterPullSecret
  cases s with
  | some s => exact copyCreateOrUpdate_retry env w s
  | none =>
    cases hg : env.getSourceErr with
    | some e => rfl
    | none =>
      cases hs : env.getSourceSecret with
      | none => simp [hg]
      | some s => simp [hg, copyCreateOrUpdate_retry]

/-- manageDockerCfgSecret never touches the retry counter. -/
theorem manageDockerCfgSecret_retry (env : Env) (w : World) (d : Bool) (s : Secret) :
    (manageDockerCfgSecret env w d s).2.secretRetryCount = w.secretRetryCount := by
  unfold manageDockerCfgSecret
  split
  · rfl
  split
  · split
    · rcases hc : copyDefaultClusterPullSecret env w none with ⟨e, w1⟩
      have hr := copyDefaultClusterPullSecret_retry env w none
      rw [hc] at hr
      cases e with
      | some e => simp only []; split <;> simpa using hr
      | none => simpa using hr
    · rfl
  split
  · split
    · cases hd : env.deleteErr with
      | some e => simp only []; split <;> rfl
      | none => rfl
    · rcases hc : copyDefaultClusterPullSecret env w (some s) with ⟨e, w1⟩
      have hr := copyDefaultClusterPullSecret_retry env w (some s)
      rw [hc] at hr
      cases e with
      | some e => simpa using hr
      | none => simpa using hr
  · rfl

/-- UpdateStatus never touches the retry counter. -/
theorem UpdateStatus_retry (env : Env) (w : World) :
    (UpdateStatus env w).2.secretRetryCount = w.secretRetryCount := rfl

/-- The shared tail always leaves the retry counter at zero. -/
theorem processSecretEventTail_retry (env : Env) (w : World) (s : Secret)
    (d r : Bool) :
    (processSecretEventTail env w s d r).2.secretRetryCount = 0 := by
  rcases hm : manageDockerCfgSecret env { w with secretRetryCount := 0 } d s with ⟨e, w1⟩
  have hr := manageDockerCfgSecret_retry env { w with secretRetryCount := 0 } d s
  rw [hm] at hr
  cases e with
  | some e =>
    simp only [processSecretEventTail, hm, UpdateStatus]
    split
    · rfl
    · simpa using hr
  | none =>
    simp only [processSecretEventTail, hm]
    split
    · rfl
    · split
      · simpa using hr
      · simpa [UpdateStatus] using hr

/-! Claim C5: the busy gate. -/

/-- C5: if the in-flight counter of the upsert gate is greater than zero,
processSecretEvent returns the retryable busy error immediately for every
event and every state, leaving the world (configuration object, retry
counter, store trace, status-write count) completely unchanged. -/
theorem c5_busy_gate (env : Env) (w : World) (s : Secret) (ev : Event)
    (h : env.upsertsAmount > 0) :
    processSecretEvent env w s ev =
      (some (GoErr.errorf "retry secret event because in the middle of an sample upsert cycle"), w) := by
  unfold processSecretEvent
  rw [if_pos h]

/-- Witness for C5 at a concrete busy environment. -/
theorem c5_busy_gate_witness :
    processSecretEvent { quietEnv with upsertsAmount := 2 }
        (baseWorld ManagementState.managed ⟨ConditionStatus.ctrue, ""⟩ 0) mirrorSecret0 ⟨true⟩ =
      (some (GoErr.errorf "retry secret event because in the middle of an sample upsert cycle"),
        baseWorld ManagementState.managed ⟨ConditionStatus.ctrue, ""⟩ 0) :=
  c5_busy_gate _ _ _ _ (by decide)

/-! Claim C8: the WaitingForCredential gate. -/

/-- C8: WaitingForCredential returns (false, false) and leaves the Config
unchanged when the cluster does not need credentials; returns (true, false)
without touching the condition when credentials are needed and the condition
is already False with a non-empty message; and when credentials are needed
and the condition message is still empty it records the missing-credential
error (condition False, non-empty message) and returns (true, true). -/
theorem c8_waiting_for_credential (cfg : Config) :
    (cfg.clusterNeedsCreds = false → WaitingForCredential cfg = (cfg, false, false))
    ∧ (cfg.clusterNeedsCreds = true →
        cfg.importCredentialsExist.status = ConditionStatus.cfalse →
        cfg.importCredentialsExist.message ≠ "" →
        WaitingForCredential cfg = (cfg, true, false))
    ∧ (cfg.clusterNeedsCreds = true →
        cfg.importCredentialsExist.message = "" →
        WaitingForCredential cfg =
          ({ cfg with importCredentialsExist :=
              { status := ConditionStatus.cfalse,
                message := "Cannot create rhel imagestreams to registry.redhat.io without the credentials being available" } },
            true, true)
        ∧ (WaitingForCredential cfg).1.importCredentialsExist.status = ConditionStatus.cfalse
        ∧ (WaitingForCredential cfg).1.importCredentialsExist.message ≠ "") := by
  refine ⟨?_, ?_, ?_⟩
  · intro h
    simp [WaitingForCredential, h]
  · intro h1 _ h3
    have hl : cfg.importCredentialsExist.message.length > 0 := by
      cases hm : cfg.importCredentialsExist.message with
      | mk data =>
        cases data with
        | nil => exact absurd hm h3
        | cons a l => simp [String.length]
    simp [WaitingForCredential, h1, hl]
  · intro h1 h2
    have hl : ¬ cfg.importCredentialsExist.message.length > 0 := by
      simp [h2]
    refine ⟨?_, ?_, ?_⟩ <;>
      simp [WaitingForCredential, h1, hl, processError, errMessage]

/-- Witness for C8 exercising all three branches at concrete configs. -/
theorem c8_waiting_for_credential_witness :
    WaitingForCredential
        { managementState := ManagementState.managed, clusterNeedsCreds := false,
          importCredentialsExist := ⟨ConditionStatus.cfalse, ""⟩ } =
      ({ managementState := ManagementState.managed, clusterNeedsCreds := false,
         importCredentialsExist := ⟨ConditionStatus.cfalse, ""⟩ }, false, false)
    ∧ WaitingForCredential
        { managementState := ManagementState.managed, clusterNeedsCreds := true,
          importCredentialsExist := ⟨ConditionStatus.cfalse, "already reported"⟩ } =
      ({ managementState := ManagementState.managed, clusterNeedsCreds := true,
         importCredentialsExist := ⟨ConditionStatus.cfalse, "already reported"⟩ }, true, false)
    ∧ (WaitingForCredential
        { managementState := ManagementState.managed, clusterNeedsCreds := true,
          importCredentialsExist := ⟨ConditionStatus.ctrue, ""⟩ }).2 = (true, true)
    ∧ (WaitingForCredential
        { managementState := ManagementState.managed, clusterNeedsCreds := true,
          importCredentialsExist := ⟨ConditionStatus.ctrue, ""⟩ }).1.importCredentialsExist.status
        = ConditionStatus.cfalse :=
  ⟨(c8_waiting_for_credential _).1 rfl,
   (c8_waiting_for_credential _).2.1 rfl rfl (by decide),
   by rw [((c8_waiting_for_credential _).2.2 rfl rfl).1],
   ((c8_waiting_for_credential
      { managementState := ManagementState.managed, clusterNeedsCreds := true,
        importCredentialsExist := ⟨ConditionStatus.ctrue, ""⟩ }).2.2 rfl rfl).2.1⟩

/-! Claim C9: deletion of the source secret. -/

/-- C9: for every delete event of the source secret, manageDockerCfgSecret
issues exactly one Delete of the mirror secret in the openshift namespace;
a nil or NotFound result is treated as success (condition set False, nil
returned), while any other delete error is returned to the caller with the
condition unchanged. -/
theorem c9_source_delete (env : Env) (w : World) (s : Secret)
    (hn : s.Name = coreosPullSecretName) (hns : s.Namespace = coreosPullSecretNamespace) :
    ((env.deleteErr = none ∨ env.deleteErr = some (GoErr.store StoreErr.notFound)) →
      manageDockerCfgSecret env w true s =
        (none,
          { w with
              cfg := GoodConditionUpdate w.cfg ConditionStatus.cfalse,
              storeTrace := w.storeTrace ++
                [StoreCall.delete "openshift" SamplesRegistryCredentials] })
      ∧ (manageDockerCfgSecret env w true s).2.cfg.importCredentialsExist.status =
          ConditionStatus.cfalse)
    ∧ (∀ e, env.deleteErr = some e → isNotFound (some e) = false →
        manageDockerCfgSecret env w true s =
          (some e,
            { w with storeTrace := w.storeTrace ++
                [StoreCall.delete "openshift" SamplesRegistryCredentials] })) := by
  have hcare : secretsWeCareAbout s = true := by
    simp [secretsWeCareAbout, hn, hns, coreosPullSecretName, coreosPullSecretNamespace]
  constructor
  · rintro (hd | hd) <;>
      simp [manageDockerCfgSecret, hcare, hn, hd, GoodConditionUpdate_status,
        coreosPullSecretName, SamplesRegistryCredentials, isNotFound]
  · intro e hd hnf
    simp [manageDockerCfgSecret, hcare, hn, hd, hnf,
      coreosPullSecretName, SamplesRegistryCredentials]

/-- Witness for C9: a successful delete and an erroring delete at concrete
inputs. -/
theorem c9_source_delete_witness :
    manageDockerCfgSecret quietEnv (baseWorld ManagementState.managed ⟨ConditionStatus.ctrue, ""⟩ 0)
        true sourceSecret0 =
      (none,
        { baseWorld ManagementState.managed ⟨ConditionStatus.ctrue, ""⟩ 0 with
            cfg := GoodConditionUpdate
              (baseWorld ManagementState.managed ⟨ConditionStatus.ctrue, ""⟩ 0).cfg
              ConditionStatus.cfalse,
            storeTrace := [StoreCall.delete "openshift" SamplesRegistryCredentials] })
    ∧ manageDockerCfgSecret { quietEnv with deleteErr := some (GoErr.store (StoreErr.other "boom")) }
        (baseWorld ManagementState.managed ⟨ConditionStatus.ctrue, ""⟩ 0) true sourceSecret0 =
      (some (GoErr.store (StoreErr.other "boom")),
        { baseWorld ManagementState.managed ⟨ConditionStatus.ctrue, ""⟩ 0 with
            storeTrace := [StoreCall.delete "openshift" SamplesRegistryCredentials] }) := by
  constructor
  · have h := (c9_source_delete quietEnv
      (baseWorld ManagementState.managed ⟨ConditionStatus.ctrue, ""⟩ 0) sourceSecret0 rfl rfl).1
      (Or.inl rfl)
    simpa using h.1
  · have h := (c9_source_delete
      { quietEnv with deleteErr := some (GoErr.store (StoreErr.other "boom")) }
      (baseWorld ManagementState.managed ⟨ConditionStatus.ctrue, ""⟩ 0) sourceSecret0 rfl rfl).2
      (GoErr.store (StoreErr.other "boom")) rfl rfl
    simpa using h

/-! Claim C7: the mirror payload written by copyDefaultClusterPullSecret. -/

/-- C7: the payload handed to Create (and, after AlreadyExists, to the
fallback Update) always targets namespace openshift, carries the mirror name,
blanked namespace / resource-version / UID, and exactly the single
version-stamp annotation; an AlreadyExists create error triggers an Update of
the same payload whose result is returned, any other create result is
returned unchanged; fetch-mode behaves identically after the source Get, and
a fetch error is propagated. -/
theorem c7_mirror_payload (env : Env) (w : World) (s : Secret) :
    ((mkSecretToCreate env s).Name = SamplesRegistryCredentials
      ∧ (mkSecretToCreate env s).Namespace = ""
      ∧ (mkSecretToCreate env s).ResourceVersion = ""
      ∧ (mkSecretToCreate env s).UID = ""
      ∧ (mkSecretToCreate env s).Annotations = some [( SamplesVersionAnnotation, env.version)]
      ∧ (mkSecretToCreate env s).Data = s.Data)
    ∧ (isAlreadyExists env.createErr = false →
        copyDefaultClusterPullSecret env w (some s) =
          (env.createErr,
            { w with storeTrace := w.storeTrace ++
                [StoreCall.create "openshift" (mkSecretToCreate env s)] }))
    ∧ (isAlreadyExists env.createErr = true →
        copyDefaultClusterPullSecret env w (some s) =
          (env.updateErr,
            { w with storeTrace := w.storeTrace ++
                [StoreCall.create "openshift" (mkSecretToCreate env s),
                 StoreCall.update "openshift" (mkSecretToCreate env s)] }))
    ∧ (env.getSourceErr = none → env.getSourceSecret = some s →
        copyDefaultClusterPullSecret env w none =
          copyCreateOrUpdate env
            { w with storeTrace := w.storeTrace ++
                [StoreCall.get coreosPullSecretNamespace coreosPullSecretName] } s)
    ∧ (∀ e, env.getSourceErr = some e →
        copyDefaultClusterPullSecret env w none =
          (some e,
            { w with storeTrace := w.storeTrace ++
                [StoreCall.get coreosPullSecretNamespace coreosPullSecretName] })) := by
  refine ⟨⟨rfl, rfl, rfl, rfl, rfl, rfl⟩, ?_, ?_, ?_, ?_⟩
  · intro h
    simp [copyDefaultClusterPullSecret, copyCreateOrUpdate, h]
  · intro h
    simp [copyDefaultClusterPullSecret, copyCreateOrUpdate, h]
  · intro h1 h2
    simp [copyDefaultClusterPullSecret, h1, h2]
  · intro e h
    simp [copyDefaultClusterPullSecret, h]

/-- Witness for C7: the create-only and the create-then-update runs at a
concrete source secret, with the stamped payload spelled out. -/
theorem c7_mirror_payload_witness :
    copyDefaultClusterPullSecret quietEnv
        (baseWorld ManagementState.managed ⟨ConditionStatus.ctrue, ""⟩ 0) (some sourceSecret0) =
      (none,
        { baseWorld ManagementState.managed ⟨ConditionStatus.ctrue, ""⟩ 0 with
            storeTrace := [StoreCall.create "openshift" (mkSecretToCreate quietEnv sourceSecret0)] })
    ∧ copyDefaultClusterPullSecret
        { quietEnv with createErr := some (GoErr.store StoreErr.alreadyExists) }
        (baseWorld ManagementState.managed ⟨ConditionStatus.ctrue, ""⟩ 0) (some sourceSecret0) =
      (none,
        { baseWorld ManagementState.managed ⟨ConditionStatus.ctrue, ""⟩ 0 with
            storeTrace :=
              [StoreCall.create "openshift"
                 (mkSecretToCreate { quietEnv with createErr := some (GoErr.store StoreErr.alreadyExists) } sourceSecret0),
               StoreCall.update "openshift"
                 (mkSecretToCreate { quietEnv with createErr := some (GoErr.store StoreErr.alreadyExists) } sourceSecret0)] })
    ∧ (mkSecretToCreate quietEnv sourceSecret0).Annotations =
        some [( SamplesVersionAnnotation, "4.0")] := by
  refine ⟨?_, ?_, ?_⟩
  · have h := (c7_mirror_payload quietEnv
      (baseWorld ManagementState.managed ⟨ConditionStatus.ctrue, ""⟩ 0) sourceSecret0).2.1 rfl
    simpa using h
  · have h := (c7_mirror_payload
      { quietEnv with createErr := some (GoErr.store StoreErr.alreadyExists) }
      (baseWorld ManagementState.managed ⟨ConditionStatus.ctrue, ""⟩ 0) sourceSecret0).2.2.1 rfl
    simpa using h
  · exact (c7_mirror_payload quietEnv
      (baseWorld ManagementState.managed ⟨ConditionStatus.ctrue, ""⟩ 0) sourceSecret0).1.2.2.2.2.1

/-! Claim C3: the relevance filter. -/

/-- C3 counterexample: a secret named foo in the openshift namespace matches
neither identity, yet with management state Managed and a clear gate a
non-delete event for it is not a no-op: the condition is rewritten to
Unknown and a non-nil error is returned (the namespace check at
secrets.go line 160 does not look at the name). -/
theorem c3_relevance_filter_counterexample :
    (processSecretEvent quietEnv (baseWorld ManagementState.managed ⟨ConditionStatus.ctrue, ""⟩ 0)
        { mirrorSecret0 with Name := "foo" } ⟨false⟩).2.cfg.importCredentialsExist.status =
      ConditionStatus.cunknown
    ∧ (processSecretEvent quietEnv (baseWorld ManagementState.managed ⟨ConditionStatus.ctrue, ""⟩ 0)
        { mirrorSecret0 with Name := "foo" } ⟨false⟩).1 ≠ none := by
  decide

/-- C3 amended: the no-op guarantee holds for every event whose secret is
outside the openshift namespace and does not match the source identity
(secrets in the openshift namespace are handled by the mirror-namespace
branch regardless of their name): with Managed state and a clear gate the
call returns nil and only resets the retry counter, leaving the
configuration, the store trace and the status-write count untouched. -/
theorem c3_relevance_filter_amended (env : Env) (w : World) (s : Secret) (ev : Event)
    (hg : env.upsertsAmount = 0)
    (hm : w.cfg.managementState = ManagementState.managed)
    (hns : s.Namespace ≠ "openshift")
    (hnk : ¬(s.Name = coreosPullSecretName ∧ s.Namespace = coreosPullSecretNamespace)) :
    processSecretEvent env w s ev = (none, { w with secretRetryCount := 0 }) := by
  have hcare : secretsWeCareAbout s = false := by
    simp only [secretsWeCareAbout, decide_eq_false_iff_not]
    rintro (⟨h1, h2⟩ | ⟨h1, h2⟩)
    · exact hnk ⟨h1, h2⟩
    · exact hns h2
  simp [processSecretEvent, processSecretEventTail, manageDockerCfgSecret,
    hg, hm, hns, hcare]

/-- Witness for C3 amended: a secret with the mirror name but in the source
namespace (matching neither identity) is ignored. -/
theorem c3_relevance_filter_amended_witness :
    processSecretEvent quietEnv (baseWorld ManagementState.managed ⟨ConditionStatus.ctrue, ""⟩ 2)
        { mirrorSecret0 with Namespace := "kube-system" } ⟨false⟩ =
      (none, { baseWorld ManagementState.managed ⟨ConditionStatus.ctrue, ""⟩ 2 with
                 secretRetryCount := 0 }) :=
  c3_relevance_filter_amended _ _ _ _ rfl rfl (by decide) (by decide)

/-! Claim C4: resetting the retry counter. -/

/-- C4 counterexample: an event delivered in Unmanaged state with the retry
counter at 2 returns nil — a definitive, non-retry outcome — yet the counter
stays at 2, so the counter is not reset on every non-ambiguous event. -/
theorem c4_retry_reset_counterexample :
    (processSecretEvent quietEnv (baseWorld ManagementState.unmanaged ⟨ConditionStatus.ctrue, ""⟩ 2)
        mirrorSecret0 ⟨true⟩).1 = none
    ∧ (processSecretEvent quietEnv (baseWorld ManagementState.unmanaged ⟨ConditionStatus.ctrue, ""⟩ 2)
        mirrorSecret0 ⟨true⟩).2.secretRetryCount = 2 := by
  decide

/-- C4 amended: the counter is reset to 0 exactly on the calls that pass the
mirror-namespace branch without early return — any gate-clear, non-Unmanaged
event outside the openshift namespace, or an openshift-namespace delete that
neither consumes retry budget nor finalizes in Removed state — while the
Unmanaged ignore path (a definitive nil outcome) leaves the counter
untouched. -/
theorem c4_retry_reset_amended (env : Env) (w : World) (s : Secret) (ev : Event)
    (hg : env.upsertsAmount = 0) :
    (w.cfg.managementState = ManagementState.unmanaged →
      processSecretEvent env w s ev = (none, w))
    ∧ (w.cfg.managementState ≠ ManagementState.unmanaged →
        (s.Namespace ≠ "openshift" ∨
          (ev.Deleted = true ∧
            ¬(ConditionTrue w.cfg = true ∧ w.secretRetryCount < 3) ∧
            w.cfg.managementState ≠ ManagementState.removed)) →
        (processSecretEvent env w s ev).2.secretRetryCount = 0) := by
  constructor
  · intro hm
    simp [processSecretEvent, hg, hm]
  · intro hm hcase
    rcases hcase with hns | ⟨hd, hretry, hrem⟩
    · simp only [processSecretEvent]
      rw [if_neg (by simp [hg]), if_neg hm, if_neg hns]
      exact processSecretEventTail_retry env w s ev.Deleted _
    · by_cases hns : s.Namespace = "openshift"
      · simp only [processSecretEvent]
        rw [if_neg (by simp [hg]), if_neg hm, if_pos hns,
          if_neg (by simp [hd]), if_neg hretry, if_neg (by simp [hrem])]
        exact processSecretEventTail_retry env w s ev.Deleted _
      · simp only [processSecretEvent]
        rw [if_neg (by simp [hg]), if_neg hm, if_neg hns]
        exact processSecretEventTail_retry env w s ev.Deleted _

/-- Witness for C4 amended: both parts at concrete inputs — the Unmanaged
path keeps the counter, the managed fall-through delete resets it. -/
theorem c4_retry_reset_amended_witness :
    processSecretEvent quietEnv (baseWorld ManagementState.unmanaged ⟨ConditionStatus.ctrue, ""⟩ 1)
        mirrorSecret0 ⟨false⟩ =
      (none, baseWorld ManagementState.unmanaged ⟨ConditionStatus.ctrue, ""⟩ 1)
    ∧ (processSecretEvent quietEnv (baseWorld ManagementState.managed ⟨ConditionStatus.ctrue, ""⟩ 3)
        mirrorSecret0 ⟨true⟩).2.secretRetryCount = 0 :=
  ⟨(c4_retry_reset_amended quietEnv _ mirrorSecret0 ⟨false⟩ rfl).1 rfl,
   (c4_retry_reset_amended quietEnv _ mirrorSecret0 ⟨true⟩ rfl).2 (by decide)
     (Or.inr ⟨rfl, by decide, by decide⟩)⟩

/-! Claim C6: idempotence of the stamped non-delete mirror event. -/

/-- C6 counterexample: the claim quantifies over every such double delivery,
but in Unmanaged state the first delivery of a stamped non-delete openshift
event does not set the condition True and produces zero UpdateStatus calls
(not exactly one flush in total with the first call flushing once). -/
theorem c6_idempotence_counterexample :
    (processSecretEvent quietEnv (baseWorld ManagementState.unmanaged ⟨ConditionStatus.cfalse, ""⟩ 0)
        stampedMirror0 ⟨false⟩).2.cfg.importCredentialsExist.status = ConditionStatus.cfalse
    ∧ (processSecretEvent quietEnv (baseWorld ManagementState.unmanaged ⟨ConditionStatus.cfalse, ""⟩ 0)
        stampedMirror0 ⟨false⟩).2.updateStatusCalls = 0
    ∧ (processSecretEvent quietEnv
        (processSecretEvent quietEnv (baseWorld ManagementState.unmanaged ⟨ConditionStatus.cfalse, ""⟩ 0)
            stampedMirror0 ⟨false⟩).2
        stampedMirror0 ⟨false⟩).2.updateStatusCalls = 0 := by
  decide

/-- C6 amended: with the upsert gate clear and management state not
Unmanaged, delivering the same stamped non-delete openshift event twice with
the condition initially not True yields exactly one flush in total: the
first delivery sets the condition True and calls UpdateStatus once, the
second returns nil leaving the world untouched; and a single delivery with
the condition already True is a complete no-op. -/
theorem c6_idempotence_amended (env : Env) (w : World) (s : Secret)
    (hg : env.upsertsAmount = 0)
    (hm : w.cfg.managementState ≠ ManagementState.unmanaged)
    (hns : s.Namespace = "openshift")
    (hst : hasVersionStamp s = true) :
    (ConditionTrue w.cfg = false →
      processSecretEvent env w s ⟨false⟩ =
        (env.updateStatusErr,
          { w with cfg := GoodConditionUpdate w.cfg ConditionStatus.ctrue,
                   updateStatusCalls := w.updateStatusCalls + 1 })
      ∧ ConditionTrue (GoodConditionUpdate w.cfg ConditionStatus.ctrue) = true
      ∧ processSecretEvent env
          { w with cfg := GoodConditionUpdate w.cfg ConditionStatus.ctrue,
                   updateStatusCalls := w.updateStatusCalls + 1 } s ⟨false⟩ =
          (none,
            { w with cfg := GoodConditionUpdate w.cfg ConditionStatus.ctrue,
                     updateStatusCalls := w.updateStatusCalls + 1 }))
    ∧ (ConditionTrue w.cfg = true →
        processSecretEvent env w s ⟨false⟩ = (none, w)) := by
  constructor
  · intro hc
    have htrue : ConditionTrue (GoodConditionUpdate w.cfg ConditionStatus.ctrue) = true := by
      simp [ConditionTrue, GoodConditionUpdate_status]
    have hm2 : (GoodConditionUpdate w.cfg ConditionStatus.ctrue).managementState ≠
        ManagementState.unmanaged := by
      rw [GoodConditionUpdate_managementState]
      exact hm
    refine ⟨?_, htrue, ?_⟩
    · simp [processSecretEvent, hg, hm, hns, hst, hc, UpdateStatus]
    · simp [processSecretEvent, hg, hm2, hns, hst, htrue]
  · intro hc
    simp [processSecretEvent, hg, hm, hns, hst, hc]

/-- Witness for C6 amended: the double delivery in Managed state with
condition initially False, plus the no-op single delivery with condition
True. -/
theorem c6_idempotence_amended_witness :
    (processSecretEvent quietEnv (baseWorld ManagementState.managed ⟨ConditionStatus.cfalse, ""⟩ 0)
        stampedMirror0 ⟨false⟩).2.cfg.importCredentialsExist.status = ConditionStatus.ctrue
    ∧ (processSecretEvent quietEnv (baseWorld ManagementState.managed ⟨ConditionStatus.cfalse, ""⟩ 0)
        stampedMirror0 ⟨false⟩).2.updateStatusCalls = 1
    ∧ processSecretEvent quietEnv
        { baseWorld ManagementState.managed ⟨ConditionStatus.cfalse, ""⟩ 0 with
            cfg := GoodConditionUpdate
              (baseWorld ManagementState.managed ⟨ConditionStatus.cfalse, ""⟩ 0).cfg
              ConditionStatus.ctrue,
            updateStatusCalls := 1 } stampedMirror0 ⟨false⟩ =
      (none,
        { baseWorld ManagementState.managed ⟨ConditionStatus.cfalse, ""⟩ 0 with
            cfg := GoodConditionUpdate
              (baseWorld ManagementState.managed ⟨ConditionStatus.cfalse, ""⟩ 0).cfg
              ConditionStatus.ctrue,
            updateStatusCalls := 1 })
    ∧ processSecretEvent quietEnv (baseWorld ManagementState.managed ⟨ConditionStatus.ctrue, ""⟩ 0)
        stampedMirror0 ⟨false⟩ =
      (none, baseWorld ManagementState.managed ⟨ConditionStatus.ctrue, ""⟩ 0) := by
  have h := (c6_idempotence_amended quietEnv
    (baseWorld ManagementState.managed ⟨ConditionStatus.cfalse, ""⟩ 0) stampedMirror0
    rfl (by decide) rfl (by decide)).1 rfl
  have h2 := (c6_idempotence_amended quietEnv
    (baseWorld ManagementState.managed ⟨ConditionStatus.ctrue, ""⟩ 0) stampedMirror0
    rfl (by decide) rfl (by decide)).2 rfl
  refine ⟨?_, ?_, ?_, h2⟩
  · rw [h.1]
    decide
  · rw [h.1]
    decide
  · exact h.2.2

/-! Claim C2: external creation of the credential without the stamp. -/

/-- C2 counterexample: with Managed state and a clear gate, a non-delete
event for a stamp-less secret in the openshift namespace performs zero
UpdateStatus calls (not exactly one) and hands a non-nil error back to the
caller; the condition is only mutated in memory. -/
theorem c2_policy_violation_counterexample :
    (processSecretEvent quietEnv (baseWorld ManagementState.managed ⟨ConditionStatus.ctrue, ""⟩ 0)
        mirrorSecret0 ⟨false⟩).2.updateStatusCalls = 0
    ∧ (processSecretEvent quietEnv (baseWorld ManagementState.managed ⟨ConditionStatus.ctrue, ""⟩ 0)
        mirrorSecret0 ⟨false⟩).1 ≠ none := by
  decide

/-- C2 amended: with the upsert gate clear and management state not
Unmanaged, every non-delete event whose secret is in the openshift namespace
and lacks the version stamp sets the condition to Unknown with the fixed
non-empty policy-violation message, performs no UpdateStatus call, and
returns that error to the caller (the flush of the Unknown condition is left
to the configuration event path). -/
theorem c2_policy_violation_amended (env : Env) (w : World) (s : Secret) (ev : Event)
    (hg : env.upsertsAmount = 0)
    (hm : w.cfg.managementState ≠ ManagementState.unmanaged)
    (hns : s.Namespace = "openshift")
    (hev : ev.Deleted = false)
    (hst : hasVersionStamp s = false) :
    processSecretEvent env w s ev =
      (some (GoErr.errorf "the samples credential was created/updated in the openshift namespace without the version annotation"),
        { w with cfg := { w.cfg with importCredentialsExist :=
            { status := ConditionStatus.cunknown,
              message := "the samples credential was created/updated in the openshift namespace without the version annotation" } } })
    ∧ (processSecretEvent env w s ev).2.cfg.importCredentialsExist.status = ConditionStatus.cunknown
    ∧ (processSecretEvent env w s ev).2.cfg.importCredentialsExist.message ≠ ""
    ∧ (processSecretEvent env w s ev).2.updateStatusCalls = w.updateStatusCalls := by
  have heq : processSecretEvent env w s ev =
      (some (GoErr.errorf "the samples credential was created/updated in the openshift namespace without the version annotation"),
        { w with cfg := { w.cfg with importCredentialsExist :=
            { status := ConditionStatus.cunknown,
              message := "the samples credential was created/updated in the openshift namespace without the version annotation" } } }) := by
    simp [processSecretEvent, hg, hm, hns, hev, hst, processError, errMessage]
  refine ⟨heq, ?_, ?_, ?_⟩
  · rw [heq]
  · rw [heq]
    simp
  · rw [heq]

/-- Witness for C2 amended at a concrete stamp-less mirror-named secret in
Managed state. -/
theorem c2_policy_violation_amended_witness :
    processSecretEvent quietEnv (baseWorld ManagementState.managed ⟨ConditionStatus.ctrue, ""⟩ 0)
        { mirrorSecret0 with Annotations := some [("owner", "someone")] } ⟨false⟩ =
      (some (GoErr.errorf "the samples credential was created/updated in the openshift namespace without the version annotation"),
        { baseWorld ManagementState.managed ⟨ConditionStatus.ctrue, ""⟩ 0 with
            cfg := { (baseWorld ManagementState.managed ⟨ConditionStatus.ctrue, ""⟩ 0).cfg with
              importCredentialsExist :=
                { status := ConditionStatus.cunknown,
                  message := "the samples credential was created/updated in the openshift namespace without the version annotation" } } }) :=
  (c2_policy_violation_amended quietEnv _ _ _ rfl (by decide) rfl rfl (by decide)).1

/-! Claim C1: bounded retry on mirror-secret deletion. -/

/-- C1 counterexample: with the retry counter at 3, condition True and
management state Managed, the fourth delete event for the mirror secret does
not finalize the deletion: the call falls through to the recreate path,
which (with the source secret present and the create succeeding) returns
nil, leaves the condition True and performs zero UpdateStatus calls — not
condition False with exactly one call. -/
theorem c1_fourth_delete_recreates_counterexample :
    (processSecretEvent quietEnv (baseWorld ManagementState.managed ⟨ConditionStatus.ctrue, ""⟩ 3)
        mirrorSecret0 ⟨true⟩).1 = none
    ∧ (processSecretEvent quietEnv (baseWorld ManagementState.managed ⟨ConditionStatus.ctrue, ""⟩ 3)
        mirrorSecret0 ⟨true⟩).2.cfg.importCredentialsExist.status = ConditionStatus.ctrue
    ∧ (processSecretEvent quietEnv (baseWorld ManagementState.managed ⟨ConditionStatus.ctrue, ""⟩ 3)
        mirrorSecret0 ⟨true⟩).2.updateStatusCalls = 0 := by
  decide

/-- C1 amended: with the gate clear, each delete event in the openshift
namespace while the condition is True and the counter is below 3 (state not
Unmanaged) returns the retryable error, increments the counter and changes
nothing else; once the retry budget no longer applies, a delete in Removed
state finalizes (condition False, exactly one UpdateStatus); a fourth delete
in Managed state instead falls through to recreation, and yields condition
False with one UpdateStatus precisely in the case where the source pull
secret fetch reports NotFound. -/
theorem c1_bounded_retry_amended (env : Env) (w : World) (s : Secret) (ev : Event)
    (hg : env.upsertsAmount = 0)
    (hns : s.Namespace = "openshift")
    (hev : ev.Deleted = true) :
    (w.cfg.managementState ≠ ManagementState.unmanaged →
      ConditionTrue w.cfg = true → w.secretRetryCount < 3 →
      processSecretEvent env w s ev =
        (some (GoErr.errorf "retry on credential deletion in the openshift namespace to make sure the operator deleted it"),
          { w with secretRetryCount := w.secretRetryCount + 1 }))
    ∧ (w.cfg.managementState = ManagementState.removed →
        ¬(ConditionTrue w.cfg = true ∧ w.secretRetryCount < 3) →
        processSecretEvent env w s ev =
          (env.updateStatusErr,
            { w with cfg := GoodConditionUpdate w.cfg ConditionStatus.cfalse,
                     updateStatusCalls := w.updateStatusCalls + 1 })
        ∧ (processSecretEvent env w s ev).2.cfg.importCredentialsExist.status =
            ConditionStatus.cfalse)
    ∧ (w.cfg.managementState = ManagementState.managed →
        s.Name = SamplesRegistryCredentials →
        ConditionTrue w.cfg = true → 3 ≤ w.secretRetryCount →
        env.getSourceErr = some (GoErr.store StoreErr.notFound) →
        processSecretEvent env w s ev =
          (env.updateStatusErr,
            { w with
                cfg := { w.cfg with
                  importCredentialsExist := ⟨ConditionStatus.cfalse, ""⟩ },
                secretRetryCount := 0,
                storeTrace := w.storeTrace ++
                  [StoreCall.get coreosPullSecretNamespace coreosPullSecretName],
                updateStatusCalls := w.updateStatusCalls + 1 })) := by
  refine ⟨?_, ?_, ?_⟩
  · intro hm hct hlt
    simp [processSecretEvent, hg, hm, hns, hev, hct, hlt]
  · intro hm hnr
    have heq : processSecretEvent env w s ev =
        (env.updateStatusErr,
          { w with cfg := GoodConditionUpdate w.cfg ConditionStatus.cfalse,
                   updateStatusCalls := w.updateStatusCalls + 1 }) := by
      simp [processSecretEvent, hg, hm, hns, hev, hnr, UpdateStatus]
    refine ⟨heq, ?_⟩
    rw [heq]
    exact GoodConditionUpdate_status w.cfg ConditionStatus.cfalse
  · intro hm hn hct h3 hsrc
    have hstatus : w.cfg.importCredentialsExist.status = ConditionStatus.ctrue := by
      simpa [ConditionTrue] using hct
    have hnl : ¬ w.secretRetryCount < 3 := by omega
    simp [processSecretEvent, processSecretEventTail, manageDockerCfgSecret,
      copyDefaultClusterPullSecret, secretsWeCareAbout, GoodConditionUpdate,
      hg, hm, hns, hev, hn, hct, hnl, hsrc, hstatus, isNotFound, UpdateStatus,
      SamplesRegistryCredentials, coreosPullSecretName]

/-- Witness for C1 amended: the first retry, the Removed-state finalize, and
the Managed fourth delete with the source gone, at concrete inputs. -/
theorem c1_bounded_retry_amended_witness :
    processSecretEvent quietEnv (baseWorld ManagementState.managed ⟨ConditionStatus.ctrue, ""⟩ 0)
        mirrorSecret0 ⟨true⟩ =
      (some (GoErr.errorf "retry on credential deletion in the openshift namespace to make sure the operator deleted it"),
        { baseWorld ManagementState.managed ⟨ConditionStatus.ctrue, ""⟩ 0 with
            secretRetryCount := 1 })
    ∧ (processSecretEvent quietEnv (baseWorld ManagementState.removed ⟨ConditionStatus.ctrue, ""⟩ 3)
        mirrorSecret0 ⟨true⟩).2.cfg.importCredentialsExist.status = ConditionStatus.cfalse
    ∧ (processSecretEvent quietEnv (baseWorld ManagementState.removed ⟨ConditionStatus.ctrue, ""⟩ 3)
        mirrorSecret0 ⟨true⟩).2.updateStatusCalls = 1
    ∧ (processSecretEvent { quietEnv with getSourceErr := some (GoErr.store StoreErr.notFound) }
        (baseWorld ManagementState.managed ⟨ConditionStatus.ctrue, ""⟩ 3)
        mirrorSecret0 ⟨true⟩).2.cfg.importCredentialsExist.status = ConditionStatus.cfalse
    ∧ (processSecretEvent { quietEnv with getSourceErr := some (GoErr.store StoreErr.notFound) }
        (baseWorld ManagementState.managed ⟨ConditionStatus.ctrue, ""⟩ 3)
        mirrorSecret0 ⟨true⟩).2.updateStatusCalls = 1 := by
  have h1 := (c1_bounded_retry_amended quietEnv
    (baseWorld ManagementState.managed ⟨ConditionStatus.ctrue, ""⟩ 0) mirrorSecret0 ⟨true⟩
    rfl rfl rfl).1 (by decide) (by decide) (by decide)
  have h2 := (c1_bounded_retry_amended quietEnv
    (baseWorld ManagementState.removed ⟨ConditionStatus.ctrue, ""⟩ 3) mirrorSecret0 ⟨true⟩
    rfl rfl rfl).2.1 rfl (by decide)
  have h3 := (c1_bounded_retry_amended
    { quietEnv with getSourceErr := some (GoErr.store StoreErr.notFound) }
    (baseWorld ManagementState.managed ⟨ConditionStatus.ctrue, ""⟩ 3) mirrorSecret0 ⟨true⟩
    rfl rfl rfl).2.2 rfl rfl (by decide) (by decide) rfl
  refine ⟨h1, ?_, ?_, ?_, ?_⟩
  · exact h2.2
  · rw [h2.1]
    decide
  · rw [h3]
  · rw [h3]
    decide

/-! Claim C10: folding a credential-management error into the status flush. -/

/-- The tail behavior when manageDockerCfgSecret fails: fold the error into
the condition as Unknown and flush, returning the flush result. -/
theorem processSecretEventTail_error (env : Env) (w : World) (s : Secret) (d : Bool)
    (e : GoErr) (w1 : World)
    (hmg : manageDockerCfgSecret env { w with secretRetryCount := 0 } d s = (some e, w1)) :
    processSecretEventTail env w s d false =
      (env.updateStatusErr,
        { w1 with cfg := (processError w1.cfg ConditionStatus.cunknown e).2,
                  updateStatusCalls := w1.updateStatusCalls + 1 }) := by
  simp [processSecretEventTail, hmg, UpdateStatus]

/-- C10: whenever the gate is clear, the state is neither Unmanaged nor
Removed, the openshift branch falls through (for an openshift-namespace
secret: a delete that does not consume retry budget), and
manageDockerCfgSecret fails with some error, processSecretEvent rewrites the
condition to Unknown with that error folded in, performs the status flush,
and returns only the flush result — so a successful flush swallows the
secret error and the caller receives nil. -/
theorem c10_secret_error_folded (env : Env) (w : World) (s : Secret) (ev : Event)
    (e : GoErr) (w1 : World)
    (hg : env.upsertsAmount = 0)
    (hm : w.cfg.managementState ≠ ManagementState.unmanaged)
    (hr : w.cfg.managementState ≠ ManagementState.removed)
    (hos : s.Namespace = "openshift" →
      ev.Deleted = true ∧ ¬(ConditionTrue w.cfg = true ∧ w.secretRetryCount < 3))
    (hmg : manageDockerCfgSecret env { w with secretRetryCount := 0 } ev.Deleted s =
      (some e, w1)) :
    processSecretEvent env w s ev =
      (env.updateStatusErr,
        { w1 with cfg := (processError w1.cfg ConditionStatus.cunknown e).2,
                  updateStatusCalls := w1.updateStatusCalls + 1 })
    ∧ (processSecretEvent env w s ev).2.cfg.importCredentialsExist.status =
        ConditionStatus.cunknown
    ∧ (env.updateStatusErr = none → (processSecretEvent env w s ev).1 = none) := by
  have hdec : decide (w.cfg.managementState = ManagementState.removed) = false := by
    simp [hr]
  have heq : processSecretEvent env w s ev =
      (env.updateStatusErr,
        { w1 with cfg := (processError w1.cfg ConditionStatus.cunknown e).2,
                  updateStatusCalls := w1.updateStatusCalls + 1 }) := by
    by_cases hns : s.Namespace = "openshift"
    · obtain ⟨hd, hretry⟩ := hos hns
      simp only [processSecretEvent]
      rw [if_neg (by simp [hg]), if_neg hm, if_pos hns, if_neg (by simp [hd]),
        if_neg hretry, if_neg (by simp [hr]), hdec]
      exact processSecretEventTail_error env w s ev.Deleted e w1 hmg
    · simp only [processSecretEvent]
      rw [if_neg (by simp [hg]), if_neg hm, if_neg hns, hdec]
      exact processSecretEventTail_error env w s ev.Deleted e w1 hmg
  refine ⟨heq, ?_, ?_⟩
  · rw [heq]
    simp [processError]
  · intro h
    rw [heq, h]

/-- Witness for C10: a source-secret delete whose mirror delete fails with a
generic error; the error lands in the condition as Unknown, one flush
happens, and nil comes back. -/
theorem c10_secret_error_folded_witness :
    processSecretEvent { quietEnv with deleteErr := some (GoErr.store (StoreErr.other "boom")) }
        (baseWorld ManagementState.managed ⟨ConditionStatus.ctrue, ""⟩ 0) sourceSecret0 ⟨true⟩ =
      (none,
        { cfg := { managementState := ManagementState.managed, clusterNeedsCreds := false,
                   importCredentialsExist := ⟨ConditionStatus.cunknown, "boom"⟩ },
          secretRetryCount := 0,
          storeTrace := [StoreCall.delete "openshift" SamplesRegistryCredentials],
          updateStatusCalls := 1 }) := by
  have h := (c10_secret_error_folded
    { quietEnv with deleteErr := some (GoErr.store (StoreErr.other "boom")) }
    (baseWorld ManagementState.managed ⟨ConditionStatus.ctrue, ""⟩ 0) sourceSecret0 ⟨true⟩
    (GoErr.store (StoreErr.other "boom"))
    { cfg := { managementState := ManagementState.managed, clusterNeedsCreds := false,
               importCredentialsExist := ⟨ConditionStatus.ctrue, ""⟩ },
      secretRetryCount := 0,
      storeTrace := [StoreCall.delete "openshift" SamplesRegistryCredentials],
      updateStatusCalls := 0 }
    rfl (by decide) (by decide) (by decide) (by decide)).1
  rw [h]
  decide

end Samples
